import Mathlib

/-!
Verification of the anti-malware core of the Client_App repository against its
natural-language specification.

The C++ sources are shallowly embedded: byte buffers (`std::vector<char>`)
become `List Nat`, wide strings become `String` or `List Char`, machine
integers become `Nat`/`Int` (with explicit `% 2^32` where a `uint32_t` can
wrap), and `double` arithmetic is modelled by exact real numbers.  Stateful
operations become explicit state-passing functions; results of OS calls that
can fail (`MoveFile`) are passed in as boolean parameters.
-/

namespace ClientApp

/-! ### Basic character / byte helpers

`::towlower` / `::tolower` are applied by the source only to ASCII data
(extensions, fixed ASCII word lists), so they are modelled as ASCII
lowercasing.
-/

/-- ASCII lowercasing of a character, modelling `::towlower` on the
ASCII range used by the source. -/
def asciiLower (c : Char) : Char :=
  if 'A' ≤ c ∧ c ≤ 'Z' then Char.ofNat (c.toNat + 32) else c

/-- ASCII lowercasing of a byte, modelling `::tolower` applied to the bytes
of a buffer (identity outside the ASCII uppercase range). -/
def asciiLowerByte (b : Nat) : Nat :=
  if 65 ≤ b ∧ b ≤ 90 then b + 32 else b

/-- The bytes of an ASCII string literal. -/
def strBytes (s : String) : List Nat :=
  s.toList.map Char.toNat

/-- The character list of a string literal. -/
def chars (s : String) : List Char :=
  s.toList

/-- The filename component of a path: the characters after the last path
separator, modelling `std::filesystem::path::filename` on Windows (both
separators). -/
def filenameOf (p : List Char) : List Char :=
  (p.reverse.takeWhile (fun c => c ≠ '\\' ∧ c ≠ '/')).reverse

/-- The extension of a path, modelling `std::filesystem::path::extension`:
the substring of the filename from its last dot, except that `.`, `..` and
filenames whose only dot is the leading one have no extension. -/
def extensionOf (p : List Char) : List Char :=
  let fn := filenameOf p
  if fn = ['.'] ∨ fn = ['.', '.'] then []
  else
    let k := (fn.reverse.takeWhile (fun c => c ≠ '.')).length
    if k = fn.length then []
    else if fn.length - 1 - k = 0 then []
    else fn.drop (fn.length - 1 - k)

/-- The lowercased extension of a path, as computed at the top of
`ThreatEngine::ScanWithHeuristics` and in the `FileMonitor` helpers
(`extension().wstring()` followed by `std::transform` with `::towlower`). -/
def extLower (p : List Char) : List Char :=
  (extensionOf p).map asciiLower

/-! ### Threat engine: data model (`threat_engine.h`) -/

/-- `VirusSignature` from `include/threat_engine.h`: a byte pattern with a
name, a severity (`uint32_t`) and an offset (`int32_t`; `-1` means "search
anywhere", `≥ 0` is a fixed offset). -/
structure VirusSignature where
  name : String
  signature : List Nat
  severity : Nat
  offset : Int
deriving DecidableEq, Repr

/-- `QuarantineEntry` from `include/threat_engine.h`. -/
structure QuarantineEntry where
  originalPath : String
  quarantinePath : String
  threatName : String
  quarantineTime : Nat
deriving DecidableEq, Repr

/-! ### Signature pass (`ThreatEngine::ScanWithSignatures`) -/

/-- Embedding of `ThreatEngine::ScanWithSignatures` (threat_engine.cpp,
418–448).  Walks the signature list in order; empty patterns are skipped
(the `continue`); a fixed-offset signature is checked only when
`offset + len ≤ data.size()` and compared with `std::equal` exactly there;
an `offset = -1` signature is searched with `std::search`, whose
"found" condition for a non-empty pattern is exactly the contiguous
substring (infix) relation.  On the first match the verdict records the
signature's name and severity and the loop returns. -/
def scanWithSignatures : List VirusSignature → List Nat → Option (String × Nat)
  | [], _ => none
  | sig :: rest, data =>
    if sig.signature.isEmpty then
      scanWithSignatures rest data
    else if 0 ≤ sig.offset then
      if decide (sig.offset.toNat + sig.signature.length ≤ data.length)
          && decide ((data.drop sig.offset.toNat).take sig.signature.length = sig.signature) then
        some (sig.name, sig.severity)
      else
        scanWithSignatures rest data
    else
      if decide (sig.signature <:+: data) then
        some (sig.name, sig.severity)
      else
        scanWithSignatures rest data

/-- The specification's notion of a single signature matching a buffer
(spec §4.1 step 3): a fixed-offset signature matches when
`offset + len ≤ buffer_len` and the bytes at exactly that position equal
the pattern; an "anywhere" signature matches when the pattern occurs as a
substring of the buffer. -/
def sigMatchesSpec (s : VirusSignature) (data : List Nat) : Bool :=
  if 0 ≤ s.offset then
    decide (s.offset.toNat + s.signature.length ≤ data.length)
      && decide ((data.drop s.offset.toNat).take s.signature.length = s.signature)
  else
    decide (s.signature <:+: data)

/-! ### Heuristic pass (`ThreatEngine::ScanWithHeuristics`) -/

/-- The suspicious-string word list hard-coded in
`ThreatEngine::ContainsSuspiciousStrings` (threat_engine.cpp, 536–546). -/
def suspiciousStrings : List (List Nat) :=
  [strBytes "cryptolocker",
   strBytes "ransomware",
   strBytes "bitcoin",
   strBytes "your files have been encrypted",
   strBytes "pay the ransom",
   strBytes "keylogger",
   strBytes "password stealer",
   strBytes "backdoor",
   strBytes "trojan"]

/-- Embedding of `ThreatEngine::ContainsSuspiciousStrings`: the buffer is
lowercased and each word of the fixed list is searched with
`std::string::find` (substring occurrence). -/
def containsSuspiciousStrings (data : List Nat) : Bool :=
  let content := data.map asciiLowerByte
  suspiciousStrings.any (fun w => decide (w <:+: content))

/-- Embedding of `ThreatEngine::CalculateEntropy` (threat_engine.cpp,
507–528): Shannon entropy over the byte-frequency distribution.  The
`double` arithmetic of the source is modelled by exact reals; the sum over
the frequency map's keys is the sum over the distinct bytes of the buffer
(every key has count ≥ 1, so the source's `probability > 0` guard always
holds). -/
noncomputable def calculateEntropy (data : List Nat) : ℝ :=
  if data.isEmpty then 0
  else
    data.toFinset.sum (fun b =>
      -(((data.count b : ℝ) / (data.length : ℝ))
          * Real.logb 2 ((data.count b : ℝ) / (data.length : ℝ))))

/-- Embedding of `ThreatEngine::ScanWithHeuristics` (threat_engine.cpp,
476–505): lowercased extension, then rule 1 (tiny executable, severity 6),
rule 2 (entropy > 7.5, severity 7), rule 3 (suspicious strings, severity
5), in that order, first match returned. -/
noncomputable def scanWithHeuristics (data : List Nat) (path : List Char) :
    Option (String × Nat) :=
  let ext := extLower path
  let isExecutable := ext = chars ".exe" ∨ ext = chars ".dll"
      ∨ ext = chars ".scr" ∨ ext = chars ".com"
  if isExecutable ∧ data.length < 1024 then
    some ("Heuristic.Suspicious.TinyExecutable", 6)
  else if calculateEntropy data > 7.5 then
    some ("Heuristic.Suspicious.HighEntropy", 7)
  else if containsSuspiciousStrings data then
    some ("Heuristic.Suspicious.Strings", 5)
  else
    none

/-- The heuristic pass as worded by the specification (§4.1 step 4 and §3):
rules in declared order, first match wins; tiny-executable = extension in
{exe, dll, scr, com} and size < 1024, severity 6; high-entropy = Shannon
entropy > 7.5, severity 7; suspicious-strings = case-insensitive substring
match of the fixed word list, severity 5. -/
noncomputable def heuristicVerdictSpec (data : List Nat) (path : List Char) :
    Option (String × Nat) :=
  if extLower path ∈ [chars ".exe", chars ".dll", chars ".scr", chars ".com"]
      ∧ data.length < 1024 then
    some ("Heuristic.Suspicious.TinyExecutable", 6)
  else if calculateEntropy data > 7.5 then
    some ("Heuristic.Suspicious.HighEntropy", 7)
  else if ∃ w ∈ suspiciousStrings, w <:+: data.map asciiLowerByte then
    some ("Heuristic.Suspicious.Strings", 5)
  else
    none

/-! ### `ThreatEngine::ScanFile` (threat_engine.cpp, 90–160) -/

/-- The in-memory scan of a read buffer: the tail of
`ThreatEngine::ScanFile` after the file content has been read.  The
signature pass runs first; the heuristic pass runs only when the signature
pass found nothing and heuristics are enabled. -/
noncomputable def scanBuffer (sigs : List VirusSignature) (heuristicsEnabled : Bool)
    (data : List Nat) (path : List Char) : Option (String × Nat) :=
  match scanWithSignatures sigs data with
  | some t => some t
  | none => if heuristicsEnabled then scanWithHeuristics data path else none

/-- The distinct exit paths of `ThreatEngine::ScanFile`. -/
inductive ScanOutcome where
  | notInitialized
  | notFound
  | emptyFile
  | tooLarge
  | scanned (verdict : Option (String × Nat))

/-- `MAX_SCAN_SIZE` from `ThreatEngine::ScanFile`: 100 MiB. -/
def MAX_SCAN_SIZE : Nat := 100 * 1024 * 1024

/-- Embedding of `ThreatEngine::ScanFile` (threat_engine.cpp, 90–160).
`fileExists` models `Utils::FileExists`; the buffer read from disk is
`content`, whose length is the stat'ed file size. -/
noncomputable def scanFile (initialized : Bool) (fileExists : Bool)
    (content : List Nat) (sigs : List VirusSignature) (heuristicsEnabled : Bool)
    (path : List Char) : ScanOutcome :=
  if ¬ initialized then .notInitialized
  else if ¬ fileExists then .notFound
  else if content.length = 0 then .emptyFile
  else if content.length > MAX_SCAN_SIZE then .tooLarge
  else .scanned (scanBuffer sigs heuristicsEnabled content path)

/-- The verdict reported to the caller of `ScanFile`: every non-`scanned`
exit path returns `false` ("no threat", i.e. Clean). -/
def outcomeVerdict : ScanOutcome → Option (String × Nat)
  | .scanned v => v
  | _ => none

/-- Whether `ScanFile` actually scanned the buffer (reached the signature /
heuristic passes) rather than returning early. -/
def outcomeScanned : ScanOutcome → Bool
  | .scanned _ => true
  | _ => false

/-! ### Quarantine (`ThreatEngine::QuarantineFile`, threat_engine.cpp 203–252)

The filesystem is modelled as the list of existing file paths; the result
of the `MoveFile` OS call is passed in as a boolean (`moveOk`), since the
OS may fail the move for reasons outside the program (cross-device, disk
full, sharing violation).  `SaveQuarantineMetadata` writes the whole
in-memory index to `metadata.dat`; the on-disk copy is the `persisted`
field. -/

/-- The state touched by `ThreatEngine::QuarantineFile`. -/
structure QuarantineState where
  files : List String
  entries : List QuarantineEntry
  persisted : List QuarantineEntry
deriving DecidableEq, Repr

/-- The quarantine directory created by `ThreatEngine::Initialize`. -/
def quarantineDir : String := "C:\\ProgramData\\AntivirusService\\Quarantine"

/-- The vault file name built by `QuarantineFile`:
`<quarantine_dir>\<timestamp>_<filename>`. -/
def quarantineTarget (timestamp : Nat) (path : String) : String :=
  quarantineDir ++ "\\" ++ toString timestamp ++ "_" ++ String.mk (filenameOf (chars path))

/-- Embedding of `ThreatEngine::QuarantineFile`: fail (unchanged state) when
the engine is uninitialized or the source file does not exist; otherwise
attempt `MoveFile(src, vault)`.  Only when the move succeeds is the entry
appended to the in-memory index and the index persisted; on failure the
state is returned untouched and `false` is reported. -/
def quarantineFile (initialized : Bool) (moveOk : Bool) (timestamp : Nat)
    (st : QuarantineState) (path threatName : String) : Bool × QuarantineState :=
  if ¬ initialized then (false, st)
  else if ¬ st.files.contains path then (false, st)
  else
    let target := quarantineTarget timestamp path
    if moveOk then
      let entry : QuarantineEntry :=
        { originalPath := path, quarantinePath := target
          threatName := threatName, quarantineTime := timestamp }
      (true,
        { files := (st.files.erase path) ++ [target]
          entries := st.entries ++ [entry]
          persisted := st.entries ++ [entry] })
    else
      (false, st)

/-! ### Database update and the engine's frame (`ThreatEngine::UpdateDatabase`,
threat_engine.cpp 275–289) -/

/-- `2^32`, the modulus of the `uint32_t` database version counter. -/
def UINT32_MOD : Nat := 4294967296

/-- The fields of `ThreatEngine` that are live after initialization. -/
structure EngineState where
  initialized : Bool
  databaseVersion : Nat
  signatureCount : Nat
  heuristicsEnabled : Bool
  cloudEnabled : Bool
  signatures : List VirusSignature
  heuristicRules : List (String × Nat)
  quarantineEntries : List QuarantineEntry
deriving DecidableEq, Repr

/-- Embedding of `ThreatEngine::UpdateDatabase`: the function only executes
`m_databaseVersion++` (a `uint32_t` increment, hence modulo `2^32`) and
returns `true`; no other member is read or written. -/
def updateDatabase (s : EngineState) : Bool × EngineState :=
  (true, { s with databaseVersion := (s.databaseVersion + 1) % UINT32_MOD })

/-! ### File monitor: event filter, priorities, queue (`file_monitor.cpp`,
`service/include/file_monitor.h`) -/

/-- The `FILE_ACTION_*` values relevant to `ProcessFileEvent`. -/
inductive FileAction where
  | added
  | removed
  | modified
  | renamedOldName
  | renamedNewName
deriving DecidableEq, Repr

/-- A queued scan request (`ScanRequest` in service/include/file_monitor.h):
path, priority (`uint32_t`) and enqueue timestamp
(`steady_clock::time_point`, modelled as a `Nat` tick count). -/
structure ScanRequest where
  filePath : String
  priority : Nat
  timestamp : Nat
deriving DecidableEq, Repr

/-- `ScanRequest::operator<` (file_monitor.h, 25–27): the comparator used by
`std::priority_queue` compares priorities only; the timestamp field is not
consulted. -/
def reqLT (a b : ScanRequest) : Bool :=
  a.priority < b.priority

/-- Default element used for out-of-range list reads in the heap embedding
(never actually read on the index ranges the algorithms use). -/
def dfltReq : ScanRequest := { filePath := "", priority := 0, timestamp := 0 }

/-- Embedding of libstdc++'s `std::__push_heap` (the sift-up loop run by
`std::priority_queue::push`): while the hole is above `top` and the parent
compares less than the value, move the parent down, then place the value.
The loop is written with structural fuel so that it evaluates in the
kernel; the hole index strictly decreases on every iteration, so
`hole + 1` units of fuel always suffice and the fuel-exhausted branch is
never reached on the calls made below. -/
def pushHeapAux : Nat → List ScanRequest → Nat → Nat → ScanRequest → List ScanRequest
  | 0, l, hole, _, value => l.set hole value
  | fuel + 1, l, hole, top, value =>
    if top < hole ∧ reqLT (l.getD ((hole - 1) / 2) dfltReq) value then
      pushHeapAux fuel (l.set hole (l.getD ((hole - 1) / 2) dfltReq)) ((hole - 1) / 2) top value
    else
      l.set hole value

/-- `std::priority_queue::push`: append, then sift the new element up. -/
def queuePush (q : List ScanRequest) (x : ScanRequest) : List ScanRequest :=
  pushHeapAux (q.length + 1) (q ++ [x]) q.length 0 x

/-- The loop of libstdc++'s `std::__adjust_heap`: push the hole down along
the larger-child path while it has two children.  Returns the updated
array together with the final hole index and `secondChild` value.
`secondChild` at least doubles on every iteration and is bounded by `(len-1)/2`,
so `len + 1` units of fuel always suffice. -/
def adjustLoop : Nat → Nat → List ScanRequest → Nat → Nat → List ScanRequest × Nat × Nat
  | 0, _, l, hole, sc => (l, hole, sc)
  | fuel + 1, len, l, hole, sc =>
    if sc < (len - 1) / 2 then
      let sc1 := 2 * (sc + 1)
      let sc2 := if reqLT (l.getD sc1 dfltReq) (l.getD (sc1 - 1) dfltReq) then sc1 - 1 else sc1
      adjustLoop fuel len (l.set hole (l.getD sc2 dfltReq)) sc2 sc2
    else
      (l, hole, sc)

/-- Embedding of libstdc++'s `std::__adjust_heap` (run by
`std::priority_queue::pop` through `std::pop_heap`): sift the hole down,
handle the final single-child level of an even-length heap, then sift the
moved value back up from the hole. -/
def adjustHeap (l : List ScanRequest) (holeIndex len : Nat) (value : ScanRequest) :
    List ScanRequest :=
  let r := adjustLoop (len + 1) len l holeIndex holeIndex
  let l1 := r.1
  let hole1 := r.2.1
  let sc1 := r.2.2
  if len % 2 = 0 ∧ sc1 = (len - 2) / 2 then
    let sc2 := 2 * (sc1 + 1)
    pushHeapAux (sc2 + 1) (l1.set hole1 (l1.getD (sc2 - 1) dfltReq)) (sc2 - 1) holeIndex value
  else
    pushHeapAux (hole1 + 1) l1 hole1 holeIndex value

/-- `std::priority_queue::pop` for the monitor's scan queue (`top()`
followed by `pop_heap` + `pop_back`), returning the popped request and the
remaining heap.  The C++ standard leaves the relative order of
equal-comparing elements unspecified; this embedding follows libstdc++'s
algorithm, which the Windows/MinGW build of the source runs. -/
def queuePop (q : List ScanRequest) : Option (ScanRequest × List ScanRequest) :=
  match q with
  | [] => none
  | _ :: _ =>
    let top := q.getD 0 dfltReq
    if q.length > 1 then
      let value := q.getD (q.length - 1) dfltReq
      let l1 := q.set (q.length - 1) top
      let l2 := adjustHeap l1 0 (q.length - 1) value
      some (top, l2.take (q.length - 1))
    else
      some (top, [])

/-- The binary max-heap ordering invariant maintained by
`std::priority_queue` over its backing array: no element compares greater
than its parent under the queue's comparator. -/
def IsHeap (q : List ScanRequest) : Prop :=
  ∀ i, i < q.length → 0 < i → reqLT (q.getD ((i - 1) / 2) dfltReq) (q.getD i dfltReq) = false

instance instDecidableIsHeap (q : List ScanRequest) : Decidable (IsHeap q) := by
  unfold IsHeap
  infer_instance

/-! #### Event filter and priority assignment (file_monitor.cpp 420–481) -/

/-- Embedding of `FileMonitor::ShouldSkipFile`: skip temp/system directories
(case-insensitive substring tests on the lowercased path) and the fixed
extension skip-list. -/
def shouldSkipFile (path : String) : Bool :=
  let lower := (chars path).map asciiLower
  if decide (chars "\\temp\\" <:+: lower)
      || decide (chars "\\tmp\\" <:+: lower)
      || decide (chars "\\appdata\\local\\temp\\" <:+: lower) then true
  else if decide (chars "\\windows\\winsxs\\" <:+: lower)
      || decide (chars "\\windows\\servicing\\" <:+: lower)
      || decide (chars "\\system volume information\\" <:+: lower) then true
  else
    let ext := extLower (chars path)
    if [chars ".log", chars ".tmp", chars ".temp", chars ".swp", chars ".bak",
        chars ".txt", chars ".ini", chars ".xml", chars ".json"].contains ext then true
    else false

/-- Embedding of `FileMonitor::DetermineScanPriority`. -/
def determineScanPriority (path : String) : Nat :=
  let ext := extLower (chars path)
  if [chars ".exe", chars ".dll", chars ".scr", chars ".com", chars ".pif"].contains ext then 10
  else if [chars ".bat", chars ".cmd", chars ".ps1", chars ".vbs", chars ".js"].contains ext then 7
  else if [chars ".doc", chars ".docx", chars ".xls", chars ".xlsx",
           chars ".ppt", chars ".pptx"].contains ext then 5
  else if [chars ".zip", chars ".rar", chars ".7z", chars ".tar"].contains ext then 3
  else 1

/-- Embedding of `FileMonitor::ProcessFileEvent` (file_monitor.cpp 316–345):
when real-time protection is on, the path passes the filter and the action
is Create or Modify, a request with `DetermineScanPriority`'s priority and
the current timestamp is pushed onto the queue — unconditionally; the queue
contents are not consulted. -/
def processFileEvent (realTimeEnabled : Bool) (path : String) (action : FileAction)
    (now : Nat) (queue : List ScanRequest) : List ScanRequest :=
  if ¬ realTimeEnabled then queue
  else if shouldSkipFile path then queue
  else if action = .added ∨ action = .modified then
    queuePush queue
      { filePath := path, priority := determineScanPriority path, timestamp := now }
  else queue

/-! #### Worker threat handling (`FileMonitor::ProcessScanRequest` /
`FileMonitor::HandleThreatDetection`, file_monitor.cpp 375–418) -/

/-- The externally visible effect of one worker iteration on a dequeued
request. -/
structure WorkerEffect where
  threatHandled : Bool
  quarantineAttempted : Bool
deriving DecidableEq, Repr

/-- Embedding of `FileMonitor::ProcessScanRequest` +
`FileMonitor::HandleThreatDetection`: after the debounce sleep, a vanished
file is dropped; a Clean verdict does nothing; a threat verdict always
reaches `HandleThreatDetection` (the threat path), which calls
`ThreatEngine::QuarantineFile` exactly when `threat_level >= 8`. -/
def processScanRequest (fileStillExists : Bool) (verdict : Option (String × Nat)) :
    WorkerEffect :=
  if ¬ fileStillExists then { threatHandled := false, quarantineAttempted := false }
  else
    match verdict with
    | none => { threatHandled := false, quarantineAttempted := false }
    | some (_, severity) =>
      { threatHandled := true, quarantineAttempted := decide (8 ≤ severity) }

/-! ### Scan orchestrator statistics (`scanner.cpp`) -/

/-- The counters of `ScanStatistics` that the claims concern. -/
structure ScanStats where
  totalFiles : Nat
  scannedFiles : Nat
  skippedFiles : Nat
  threatsFound : Nat
  totalBytes : Nat
  scannedBytes : Nat
deriving DecidableEq, Repr

/-- `ResetStatistics`: all counters zero. -/
def zeroStats : ScanStats :=
  { totalFiles := 0, scannedFiles := 0, skippedFiles := 0
    threatsFound := 0, totalBytes := 0, scannedBytes := 0 }

/-- The per-file inputs of one `Scanner::ScanSingleFile` call:
the two reads of the cancel flag (loop head and function head — the flag
can be set between them), the `ShouldScanFile` filter decision, whether
the `try` block throws before the counter update (e.g. in the progress
callback), the engine's verdict and the file size. -/
structure FileStep where
  cancelOuter : Bool
  cancelInner : Bool
  shouldScan : Bool
  throwsEx : Bool
  isThreat : Bool
  size : Nat
deriving DecidableEq, Repr

/-- Statistics effect of `Scanner::ScanSingleFile` (scanner.cpp 210–269):
on cancel, return with nothing counted; a filtered-out file increments
`skippedFiles`; an exception path increments `skippedFiles`; otherwise
`scannedFiles`/`scannedBytes` (and `threatsFound` on a threat) are
updated. -/
def scanSingleFileStats (f : FileStep) (s : ScanStats) : ScanStats :=
  if f.cancelInner then s
  else if ¬ f.shouldScan then { s with skippedFiles := s.skippedFiles + 1 }
  else if f.throwsEx then { s with skippedFiles := s.skippedFiles + 1 }
  else
    { s with
      scannedFiles := s.scannedFiles + 1
      scannedBytes := s.scannedBytes + f.size
      threatsFound := s.threatsFound + (if f.isThreat then 1 else 0) }

/-- Statistics effect of `Scanner::ScanFile` on a single file (scanner.cpp
32–53): `ResetStatistics` then `ScanSingleFile` — `totalFiles` is never
incremented on this path. -/
def scannerScanFileStats (f : FileStep) : ScanStats :=
  scanSingleFileStats f zeroStats

/-- Statistics effect of `Scanner::ScanDirectoryRecursive` (scanner.cpp
271–299) over the regular files of the traversal: per file, check the
cancel flag (break), increment `totalFiles`/`totalBytes`, then run
`ScanSingleFile`. -/
def scanDirRec : ScanStats → List FileStep → ScanStats
  | s, [] => s
  | s, f :: rest =>
    if f.cancelOuter then s
    else
      scanDirRec
        (scanSingleFileStats f
          { s with totalFiles := s.totalFiles + 1, totalBytes := s.totalBytes + f.size })
        rest

/-! ### Archive scanner (`ArchiveScanner::extractZipEntry`,
service/src/archive_scanner.cpp 392–464) -/

/-- The fields of an `ArchiveEntry` consulted by `extractZipEntry`. -/
structure ArchiveEntry where
  name : String
  encrypted : Bool
  uncompressedSize : Nat
deriving DecidableEq, Repr

/-- The fields of the ZIP local file header consulted by
`extractZipEntry` (all little-endian `uint16`/`uint32` values). -/
structure LocalFileHeader where
  signature : Nat
  compression : Nat
  compressedSize : Nat
  uncompressedSize : Nat
deriving DecidableEq, Repr

/-- Embedding of `ArchiveScanner::extractZipEntry`: `rawData` is the byte
stream following the entry's local header inside the archive (for a
compressed entry, the still-compressed bytes).  Returns the bytes written
to the output file, or `none` when extraction fails (output deleted).
Mirrors the source: encrypted entries and oversize entries fail; method 0
(Stored) copies `compressedSize` bytes; method 8 (Deflate) *also copies the
compressed bytes verbatim* whenever `compressedSize == uncompressedSize`,
and fails otherwise; any other method fails. -/
def extractZipEntry (maxExtractedSize : Nat) (entry : ArchiveEntry)
    (lfh : LocalFileHeader) (rawData : List Nat) : Option (List Nat) :=
  if entry.encrypted then none
  else if entry.uncompressedSize > maxExtractedSize / 10 then none
  else if lfh.signature ≠ 0x04034b50 then none
  else if lfh.compression = 0 then
    some (rawData.take lfh.compressedSize)
  else if lfh.compression = 8 then
    if lfh.compressedSize = lfh.uncompressedSize then
      some (rawData.take lfh.compressedSize)
    else none
  else none

/-! ## Theorems -/

/-- Claim C1: for every signature list (with the data-model invariant that
patterns are non-empty) and byte buffer, the signature pass returns the
first matching signature in iteration order and short-circuits; a
fixed-offset signature matches exactly when `offset + len ≤ buffer_len`
and the bytes at that position equal the pattern; an "anywhere" signature
matches exactly when the pattern occurs as a substring; the verdict
carries that signature's name and severity. -/
theorem scanWithSignatures_first_match (sigs : List VirusSignature) (data : List Nat)
    (h : ∀ s ∈ sigs, s.signature ≠ []) :
    scanWithSignatures sigs data
      = (sigs.find? (fun s => sigMatchesSpec s data)).map (fun s => (s.name, s.severity)) := by
  induction sigs with
  | nil => rfl
  | cons sig rest ih =>
    have hne : sig.signature ≠ [] := h sig (List.mem_cons_self sig rest)
    have hemp : sig.signature.isEmpty = false := by
      simpa [List.isEmpty_iff] using hne
    have hrest := ih (fun s hs => h s (List.mem_cons_of_mem _ hs))
    by_cases hm : sigMatchesSpec sig data = true
    · have hfind : List.find? (fun s => sigMatchesSpec s data) (sig :: rest) = some sig := by
        simp [List.find?_cons, hm]
      rw [hfind]
      by_cases hoff : (0 : Int) ≤ sig.offset
      · have hc := hm
        rw [sigMatchesSpec, if_pos hoff] at hc
        simp [scanWithSignatures, hemp, hoff, hc]
      · have hc := hm
        rw [sigMatchesSpec, if_neg hoff] at hc
        simp [scanWithSignatures, hemp, hoff, hc]
    · have hfind : List.find? (fun s => sigMatchesSpec s data) (sig :: rest)
          = List.find? (fun s => sigMatchesSpec s data) rest := by
        simp [List.find?_cons, hm]
      rw [hfind]
      by_cases hoff : (0 : Int) ≤ sig.offset
      · have hc := hm
        rw [sigMatchesSpec, if_pos hoff] at hc
        simp only [Bool.not_eq_true] at hc
        simp [scanWithSignatures, hemp, hoff, hc, hrest]
      · have hc := hm
        rw [sigMatchesSpec, if_neg hoff] at hc
        simp only [Bool.not_eq_true] at hc
        simp [scanWithSignatures, hemp, hoff, hc, hrest]

/-- Witness for C1: a concrete one-signature database and the buffer of
scenario S1, evaluated through `scanWithSignatures_first_match`. -/
theorem scanWithSignatures_first_match_witness :
    scanWithSignatures [⟨"TEST", strBytes "EVILBYTES", 9, -1⟩]
        (strBytes "AAAAEVILBYTESAAAA")
      = (([⟨"TEST", strBytes "EVILBYTES", 9, -1⟩] : List VirusSignature).find?
          (fun s => sigMatchesSpec s (strBytes "AAAAEVILBYTESAAAA"))).map
            (fun s => (s.name, s.severity))
    ∧ scanWithSignatures [⟨"TEST", strBytes "EVILBYTES", 9, -1⟩]
        (strBytes "AAAAEVILBYTESAAAA") = some ("TEST", 9) :=
  ⟨scanWithSignatures_first_match _ _ (by decide), by decide⟩

/-- The heuristic pass of the source coincides, rule for rule, with the
specification's description of it. -/
theorem scanWithHeuristics_eq_spec (data : List Nat) (path : List Char) :
    scanWithHeuristics data path = heuristicVerdictSpec data path := by
  have h1 : ((extLower path = chars ".exe" ∨ extLower path = chars ".dll"
        ∨ extLower path = chars ".scr" ∨ extLower path = chars ".com")
        ∧ data.length < 1024)
      ↔ (extLower path ∈ [chars ".exe", chars ".dll", chars ".scr", chars ".com"]
        ∧ data.length < 1024) := by
    simp
  have h3 : (containsSuspiciousStrings data = true)
      ↔ ∃ w ∈ suspiciousStrings, w <:+: List.map asciiLowerByte data := by
    simp [containsSuspiciousStrings, List.any_eq_true]
  unfold scanWithHeuristics heuristicVerdictSpec
  exact if_congr h1 rfl (if_congr Iff.rfl rfl (if_congr h3 rfl rfl))

/-- Claim C2: the heuristic pass runs only when the signature pass returned
Clean and heuristics are enabled, and it evaluates the declared rules in
order with the first match winning — tiny executable (extension in
{exe, dll, scr, com} and size < 1024, severity 6), then high entropy
(Shannon entropy > 7.5, severity 7), then suspicious strings
(case-insensitive substring of the fixed word list, severity 5). -/
theorem scanBuffer_pass_order (sigs : List VirusSignature) (data : List Nat) (path : List Char) :
    (scanBuffer sigs false data path = scanWithSignatures sigs data)
    ∧ (∀ t, scanWithSignatures sigs data = some t → ∀ en, scanBuffer sigs en data path = some t)
    ∧ (scanWithSignatures sigs data = none →
        scanBuffer sigs true data path = heuristicVerdictSpec data path) := by
  refine ⟨?_, ?_, ?_⟩
  · unfold scanBuffer
    cases h : scanWithSignatures sigs data <;> simp
  · intro t ht en
    unfold scanBuffer
    rw [ht]
  · intro hnone
    unfold scanBuffer
    rw [hnone]
    simpa using scanWithHeuristics_eq_spec data path

/-- Witness for C2: a concrete buffer matched by the signature pass, and a
concrete Clean-signature buffer whose verdict is given by the
specification's heuristic rules. -/
theorem scanBuffer_pass_order_witness :
    scanBuffer [⟨"PE.Suspicious.Header", strBytes "MZ", 3, 0⟩] true
        (strBytes "MZhello") (chars "C:\\a\\prog.exe") = some ("PE.Suspicious.Header", 3)
    ∧ scanBuffer [] true (strBytes "hello") (chars "C:\\a\\note.txt")
        = heuristicVerdictSpec (strBytes "hello") (chars "C:\\a\\note.txt") :=
  ⟨(scanBuffer_pass_order _ _ _).2.1 ("PE.Suspicious.Header", 3) (by decide) true,
   (scanBuffer_pass_order _ _ _).2.2 (by decide)⟩

/-- Claim C3: `ScanFile` returns Clean for a missing file and for an empty
file; a file strictly larger than `MAX_SCAN_SIZE` (100 MiB) is skipped
with a Clean verdict; a file of exactly `MAX_SCAN_SIZE` bytes is scanned,
and one of `MAX_SCAN_SIZE + 1` bytes is skipped. -/
theorem scanFile_size_gates (fe : Bool) (content : List Nat) (sigs : List VirusSignature)
    (en : Bool) (path : List Char) :
    (outcomeVerdict (scanFile true false content sigs en path) = none)
    ∧ (content.length = 0 → outcomeVerdict (scanFile true fe content sigs en path) = none)
    ∧ (content.length > MAX_SCAN_SIZE →
        scanFile true true content sigs en path = ScanOutcome.tooLarge)
    ∧ (content.length = MAX_SCAN_SIZE →
        outcomeScanned (scanFile true true content sigs en path) = true)
    ∧ (content.length = MAX_SCAN_SIZE + 1 →
        scanFile true true content sigs en path = ScanOutcome.tooLarge) := by
  refine ⟨?_, ?_, ?_, ?_, ?_⟩
  · simp [scanFile, outcomeVerdict]
  · intro h0
    cases fe <;> simp [scanFile, outcomeVerdict, h0]
  · intro hbig
    have h0 : ¬ content.length = 0 := by
      have : 0 < MAX_SCAN_SIZE := by norm_num [MAX_SCAN_SIZE]
      omega
    simp [scanFile, h0, hbig]
  · intro hmax
    have h0 : ¬ content.length = 0 := by
      rw [hmax]; norm_num [MAX_SCAN_SIZE]
    have hnb : ¬ content.length > MAX_SCAN_SIZE := by omega
    simp [scanFile, h0, hnb, outcomeScanned]
  · intro hover
    have h0 : ¬ content.length = 0 := by
      rw [hover]; norm_num [MAX_SCAN_SIZE]
    have hb : content.length > MAX_SCAN_SIZE := by omega
    simp [scanFile, h0, hb]

/-- Witness for C3: concrete buffers at and just above the 100 MiB bound,
plus a missing file, evaluated through `scanFile_size_gates`. -/
theorem scanFile_size_gates_witness :
    outcomeScanned (scanFile true true (List.replicate MAX_SCAN_SIZE 7) [] true
        (chars "C:\\big.bin")) = true
    ∧ scanFile true true (List.replicate (MAX_SCAN_SIZE + 1) 7) [] true
        (chars "C:\\big.bin") = ScanOutcome.tooLarge
    ∧ outcomeVerdict (scanFile true false [1, 2, 3] [] true (chars "C:\\gone.bin")) = none :=
  ⟨(scanFile_size_gates true (List.replicate MAX_SCAN_SIZE 7) [] true
      (chars "C:\\big.bin")).2.2.2.1 (by simp),
   (scanFile_size_gates true (List.replicate (MAX_SCAN_SIZE + 1) 7) [] true
      (chars "C:\\big.bin")).2.2.2.2 (by simp),
   (scanFile_size_gates true [1, 2, 3] [] true (chars "C:\\gone.bin")).1⟩

/-- Claim C4: a monitor worker reaching a threat verdict always passes it
to `HandleThreatDetection` (the threat path), which attempts automatic
quarantine exactly when the verdict's severity is at least 8; in
particular a high-entropy heuristic verdict of severity 7 is handled on
the threat path but not auto-quarantined. -/
theorem worker_quarantine_iff (name : String) (sev : Nat) (v : Option (String × Nat)) :
    ((processScanRequest true (some (name, sev))).quarantineAttempted = true ↔ 8 ≤ sev)
    ∧ (processScanRequest true (some (name, sev))).threatHandled = true
    ∧ (processScanRequest true (some ("Heuristic.Suspicious.HighEntropy", 7))).threatHandled
        = true
    ∧ (processScanRequest true
        (some ("Heuristic.Suspicious.HighEntropy", 7))).quarantineAttempted = false
    ∧ (processScanRequest false v).quarantineAttempted = false
    ∧ (processScanRequest true none).quarantineAttempted = false := by
  refine ⟨?_, ?_, by decide, by decide, ?_, by decide⟩
  · simp [processScanRequest]
  · simp [processScanRequest]
  · cases v <;> simp [processScanRequest]

/-- Claim C5: when the move of the source file into the vault fails,
`QuarantineFile` reports failure and leaves the whole quarantine state —
the filesystem, the in-memory index and the persisted index — untouched;
an index entry is appended and persisted exactly on a successful move. -/
theorem quarantineFile_frame (init moveOk : Bool) (ts : Nat) (st : QuarantineState)
    (path tn : String) :
    (moveOk = false → quarantineFile init moveOk ts st path tn = (false, st))
    ∧ ((quarantineFile init moveOk ts st path tn).1 = false →
        (quarantineFile init moveOk ts st path tn).2 = st)
    ∧ ((quarantineFile init moveOk ts st path tn).1 = true →
        moveOk = true
        ∧ (quarantineFile init moveOk ts st path tn).2.entries
            = st.entries ++ [⟨path, quarantineTarget ts path, tn, ts⟩]
        ∧ (quarantineFile init moveOk ts st path tn).2.persisted
            = (quarantineFile init moveOk ts st path tn).2.entries
        ∧ (quarantineFile init moveOk ts st path tn).2.files
            = (st.files.erase path) ++ [quarantineTarget ts path]) := by
  unfold quarantineFile
  split_ifs with hinit hfile hmove <;> simp_all

/-- Witness for C5: a failed move leaves a concrete one-file state intact;
a successful move appends exactly one entry and persists it. -/
theorem quarantineFile_frame_witness :
    quarantineFile true false 111 ⟨["C:\\x\\evil.exe"], [], []⟩ "C:\\x\\evil.exe" "Trojan.Test"
      = (false, ⟨["C:\\x\\evil.exe"], [], []⟩)
    ∧ (quarantineFile true true 111 ⟨["C:\\x\\evil.exe"], [], []⟩ "C:\\x\\evil.exe"
        "Trojan.Test").2.entries
      = [⟨"C:\\x\\evil.exe", quarantineTarget 111 "C:\\x\\evil.exe", "Trojan.Test", 111⟩] :=
  ⟨(quarantineFile_frame true false 111 ⟨["C:\\x\\evil.exe"], [], []⟩ "C:\\x\\evil.exe"
      "Trojan.Test").1 rfl,
   by
    have h := (quarantineFile_frame true true 111 ⟨["C:\\x\\evil.exe"], [], []⟩ "C:\\x\\evil.exe"
      "Trojan.Test").2.2 (by decide)
    simpa using h.2.1⟩

/-- Claim C9 (failing input): `extractZipEntry` on a Deflate entry
(compression method 8) whose compressed and uncompressed sizes coincide
reports success and writes the still-compressed bytes verbatim as the
entry's content, contradicting the specification's requirement that
non-Stored entries are never extracted and that compressed bytes are
never silently copied.  The input below is such an entry: method 8,
both sizes 4, raw deflate stream `[0x78, 0x9c, 0x63, 0x00]`. -/
theorem extractZipEntry_deflate_silent_copy :
    extractZipEntry 104857600 ⟨"payload.bin", false, 4⟩
        ⟨0x04034b50, 8, 4, 4⟩ [0x78, 0x9c, 0x63, 0x00]
      = some [0x78, 0x9c, 0x63, 0x00]
    ∧ (8 : Nat) ≠ 0 := by
  exact ⟨by decide, by decide⟩

/-- Claim C10 (counterexample): `UpdateDatabase` increments the `uint32_t`
version counter, which wraps: from version `4294967295` the counter goes
to `0`, not to `4294967295 + 1`, so "increments the database version
counter by exactly one" fails at the wrap point. -/
theorem updateDatabase_wrap_counterexample :
    (updateDatabase ⟨true, 4294967295, 3, true, false, [], [], []⟩).2.databaseVersion = 0
    ∧ (updateDatabase ⟨true, 4294967295, 3, true, false, [], [],
        []⟩).2.databaseVersion ≠ 4294967295 + 1 := by
  exact ⟨by decide, by decide⟩

/-- Claim C10 (amended): `UpdateDatabase` always returns `true`, increments
the version counter modulo `2^32` (by exactly one whenever no wrap
occurs), and leaves every other part of the engine state unchanged. -/
theorem updateDatabase_frame (s : EngineState) :
    (updateDatabase s).1 = true
    ∧ (updateDatabase s).2.databaseVersion = (s.databaseVersion + 1) % UINT32_MOD
    ∧ (s.databaseVersion + 1 < UINT32_MOD →
        (updateDatabase s).2.databaseVersion = s.databaseVersion + 1)
    ∧ (updateDatabase s).2.initialized = s.initialized
    ∧ (updateDatabase s).2.signatureCount = s.signatureCount
    ∧ (updateDatabase s).2.heuristicsEnabled = s.heuristicsEnabled
    ∧ (updateDatabase s).2.cloudEnabled = s.cloudEnabled
    ∧ (updateDatabase s).2.signatures = s.signatures
    ∧ (updateDatabase s).2.heuristicRules = s.heuristicRules
    ∧ (updateDatabase s).2.quarantineEntries = s.quarantineEntries := by
  refine ⟨rfl, rfl, ?_, rfl, rfl, rfl, rfl, rfl, rfl, rfl⟩
  intro hlt
  simp [updateDatabase, Nat.mod_eq_of_lt hlt]

/-- Witness for C10 (amended): a concrete engine state away from the wrap
point, where the version advances by exactly one and the signature list is
untouched. -/
theorem updateDatabase_frame_witness :
    (updateDatabase ⟨true, 41, 2, true, false, [⟨"PE.Suspicious.Header", strBytes "MZ", 3, 0⟩],
        [("Heuristic.Suspicious.TinyExecutable", 6)], []⟩).2.databaseVersion = 42
    ∧ (updateDatabase ⟨true, 41, 2, true, false, [⟨"PE.Suspicious.Header", strBytes "MZ", 3, 0⟩],
        [("Heuristic.Suspicious.TinyExecutable", 6)], []⟩).2.signatures
      = [⟨"PE.Suspicious.Header", strBytes "MZ", 3, 0⟩] :=
  ⟨(updateDatabase_frame ⟨true, 41, 2, true, false,
      [⟨"PE.Suspicious.Header", strBytes "MZ", 3, 0⟩],
      [("Heuristic.Suspicious.TinyExecutable", 6)], []⟩).2.2.1 (by decide),
   (updateDatabase_frame ⟨true, 41, 2, true, false,
      [⟨"PE.Suspicious.Header", strBytes "MZ", 3, 0⟩],
      [("Heuristic.Suspicious.TinyExecutable", 6)], []⟩).2.2.2.2.2.2.2.1⟩

/-- Under the heap invariant, every element's priority is bounded by the
root's: each element compares no greater than its parent, and the parent
chain descends to index 0. -/
theorem heap_root_max (q : List ScanRequest) (hq : IsHeap q) :
    ∀ i, i < q.length → (q.getD i dfltReq).priority ≤ (q.getD 0 dfltReq).priority := by
  intro i
  induction i using Nat.strong_induction_on with
  | _ i ih =>
    intro hi
    rcases Nat.eq_zero_or_pos i with h0 | h0
    · subst h0
      exact Nat.le_refl _
    · have hpar := hq i hi h0
      have h1 : ¬ (q.getD ((i - 1) / 2) dfltReq).priority
          < (q.getD i dfltReq).priority := by
        simpa [reqLT] using hpar
      have h2 : (i - 1) / 2 < i := by omega
      exact Nat.le_trans (Nat.le_of_not_lt h1) (ih ((i - 1) / 2) h2 (Nat.lt_trans h2 hi))

/-- Claim C6 (amended): a dequeue from the monitor's scan queue returns a
request of maximal priority among the queued requests (the element at the
root of the heap that `std::priority_queue` maintains under
`ScanRequest::operator<`); among requests of equal priority no enqueue-time
order is guaranteed, since the comparator never consults the timestamp. -/
theorem queuePop_max_priority (q : List ScanRequest) (t : ScanRequest)
    (rest : List ScanRequest) (hq : IsHeap q) (hpop : queuePop q = some (t, rest)) :
    ∀ x ∈ q, x.priority ≤ t.priority := by
  have hfst : ∀ (a : ScanRequest) (l : List ScanRequest),
      (queuePop (a :: l)).map Prod.fst = some a := by
    intro a l
    cases l <;> simp [queuePop]
  cases q with
  | nil => simp [queuePop] at hpop
  | cons a l =>
    have h1 : t = a := by
      have h2 := hfst a l
      rw [hpop] at h2
      simpa using h2
    subst h1
    intro x hx
    obtain ⟨i, hi, rfl⟩ := List.mem_iff_getElem.mp hx
    have hmax := heap_root_max (t :: l) hq i hi
    rw [List.getD_eq_getElem _ dfltReq hi] at hmax
    simpa using hmax

/-- Witness for C6 (amended): a concrete four-element heap satisfying the
invariant; the popped request has the maximal priority 9. -/
theorem queuePop_max_priority_witness :
    IsHeap [⟨"e", 9, 0⟩, ⟨"c", 7, 3⟩, ⟨"b", 5, 2⟩, ⟨"a", 1, 1⟩]
    ∧ ∀ x ∈ ([⟨"e", 9, 0⟩, ⟨"c", 7, 3⟩, ⟨"b", 5, 2⟩, ⟨"a", 1, 1⟩] : List ScanRequest),
        x.priority ≤ 9 :=
  ⟨by decide,
   fun x hx =>
     queuePop_max_priority [⟨"e", 9, 0⟩, ⟨"c", 7, 3⟩, ⟨"b", 5, 2⟩, ⟨"a", 1, 1⟩]
       ⟨"e", 9, 0⟩ [⟨"c", 7, 3⟩, ⟨"a", 1, 1⟩, ⟨"b", 5, 2⟩]
       (by decide) (by decide) x hx⟩

/-- Claim C6 (counterexample to FIFO within a priority): four requests of
equal priority enqueued at times 1, 2, 3, 4 end up in the backing array in
insertion order, yet the pops deliver times 1, 3, 2, 4 — the request
enqueued at time 3 is dequeued while the older request from time 2 is
still queued, because `ScanRequest::operator<` ignores the enqueue time
and the heap's pop re-orders equal-comparing elements. -/
theorem queuePop_fifo_counterexample :
    queuePush (queuePush (queuePush (queuePush [] ⟨"a", 1, 1⟩) ⟨"b", 1, 2⟩) ⟨"c", 1, 3⟩)
        ⟨"d", 1, 4⟩
      = [⟨"a", 1, 1⟩, ⟨"b", 1, 2⟩, ⟨"c", 1, 3⟩, ⟨"d", 1, 4⟩]
    ∧ queuePop [⟨"a", 1, 1⟩, ⟨"b", 1, 2⟩, ⟨"c", 1, 3⟩, ⟨"d", 1, 4⟩]
        = some (⟨"a", 1, 1⟩, [⟨"c", 1, 3⟩, ⟨"b", 1, 2⟩, ⟨"d", 1, 4⟩])
    ∧ queuePop [⟨"c", 1, 3⟩, ⟨"b", 1, 2⟩, ⟨"d", 1, 4⟩]
        = some (⟨"c", 1, 3⟩, [⟨"b", 1, 2⟩, ⟨"d", 1, 4⟩]) := by
  exact ⟨by decide, by decide, by decide⟩

/-- The sift-up loop permutes elements in place: it never changes the
length of the backing array. -/
theorem pushHeapAux_length (fuel : Nat) :
    ∀ (l : List ScanRequest) (hole top : Nat) (value : ScanRequest),
      (pushHeapAux fuel l hole top value).length = l.length := by
  induction fuel with
  | zero =>
    intro l hole top value
    simp [pushHeapAux]
  | succ f ih =>
    intro l hole top value
    simp only [pushHeapAux]
    split
    · rw [ih]
      simp
    · simp

/-- `std::priority_queue::push` grows the queue by exactly one element. -/
theorem queuePush_length (q : List ScanRequest) (x : ScanRequest) :
    (queuePush q x).length = q.length + 1 := by
  unfold queuePush
  rw [pushHeapAux_length]
  simp

/-- Claim C7 (amended): `ProcessFileEvent` never consults the queue
contents — whenever real-time protection is on, the path passes the
filter and the action is Create or Modify, a new request is pushed
unconditionally, growing the queue by one even when a request for the
same path with equal or higher priority is already queued. -/
theorem processFileEvent_unconditional (path : String) (action : FileAction) (now : Nat)
    (queue : List ScanRequest) (hskip : shouldSkipFile path = false)
    (hact : action = FileAction.added ∨ action = FileAction.modified) :
    processFileEvent true path action now queue
      = queuePush queue ⟨path, determineScanPriority path, now⟩
    ∧ (processFileEvent true path action now queue).length = queue.length + 1 := by
  have hev : processFileEvent true path action now queue
      = queuePush queue ⟨path, determineScanPriority path, now⟩ := by
    unfold processFileEvent
    rw [if_neg (by simp), if_neg (by simp [hskip]), if_pos hact]
  exact ⟨hev, by rw [hev, queuePush_length]⟩

/-- Witness for C7 (amended): an event for a path that is already queued
with the same priority still grows the queue from one request to two. -/
theorem processFileEvent_unconditional_witness :
    processFileEvent true "C:\\w\\payload.exe" FileAction.added 6
        [⟨"C:\\w\\payload.exe", 10, 5⟩]
      = queuePush [⟨"C:\\w\\payload.exe", 10, 5⟩]
          ⟨"C:\\w\\payload.exe", determineScanPriority "C:\\w\\payload.exe", 6⟩
    ∧ (processFileEvent true "C:\\w\\payload.exe" FileAction.added 6
        [⟨"C:\\w\\payload.exe", 10, 5⟩]).length
      = ([⟨"C:\\w\\payload.exe", 10, 5⟩] : List ScanRequest).length + 1 :=
  processFileEvent_unconditional "C:\\w\\payload.exe" FileAction.added 6
    [⟨"C:\\w\\payload.exe", 10, 5⟩] (by decide) (Or.inl rfl)

/-- Claim C7 (counterexample): two Create events for the same path, with
equal priority 10, both end up in the queue — the second enqueue is not a
no-op, so the queue holds two requests for one path where the newer has
equal priority to the older queued one. -/
theorem processFileEvent_duplicate_counterexample :
    processFileEvent true "C:\\w\\evil.exe" FileAction.added 6
        (processFileEvent true "C:\\w\\evil.exe" FileAction.added 5 [])
      = [⟨"C:\\w\\evil.exe", 10, 5⟩, ⟨"C:\\w\\evil.exe", 10, 6⟩] := by
  decide

/-- One iteration of the directory-scan loop (`totalFiles`/`totalBytes`
update followed by `ScanSingleFile`) preserves
`scanned + skipped ≤ total`. -/
theorem dirStep_le (f : FileStep) (s : ScanStats)
    (h : s.scannedFiles + s.skippedFiles ≤ s.totalFiles) :
    (scanSingleFileStats f
        { s with totalFiles := s.totalFiles + 1,
                 totalBytes := s.totalBytes + f.size }).scannedFiles
      + (scanSingleFileStats f
        { s with totalFiles := s.totalFiles + 1,
                 totalBytes := s.totalBytes + f.size }).skippedFiles
      ≤ (scanSingleFileStats f
        { s with totalFiles := s.totalFiles + 1,
                 totalBytes := s.totalBytes + f.size }).totalFiles := by
  unfold scanSingleFileStats
  split_ifs <;> simp_all <;> omega

/-- One non-cancelled iteration of the directory-scan loop adds exactly one
to `totalFiles` and exactly one to `scanned + skipped`. -/
theorem dirStep_eq (f : FileStep) (s : ScanStats) (hc : f.cancelInner = false)
    (h : s.scannedFiles + s.skippedFiles = s.totalFiles) :
    (scanSingleFileStats f
        { s with totalFiles := s.totalFiles + 1,
                 totalBytes := s.totalBytes + f.size }).scannedFiles
      + (scanSingleFileStats f
        { s with totalFiles := s.totalFiles + 1,
                 totalBytes := s.totalBytes + f.size }).skippedFiles
      = (scanSingleFileStats f
        { s with totalFiles := s.totalFiles + 1,
                 totalBytes := s.totalBytes + f.size }).totalFiles := by
  unfold scanSingleFileStats
  rw [hc]
  split_ifs <;> simp_all <;> omega

/-- Claim C8 (amended): along the recursive directory scan the invariant
`scanned_files + skipped_files ≤ total_files` holds after every iteration
(for every prefix of the traversal), and when no cancellation occurs the
two sides are equal at completion.  (On the single-file path
`Scanner::ScanFile` the invariant fails, see the counterexample.) -/
theorem scanDirRec_stats (steps : List FileStep) (s : ScanStats)
    (hle : s.scannedFiles + s.skippedFiles ≤ s.totalFiles) :
    (∀ n, (scanDirRec s (List.take n steps)).scannedFiles
        + (scanDirRec s (List.take n steps)).skippedFiles
        ≤ (scanDirRec s (List.take n steps)).totalFiles)
    ∧ (s.scannedFiles + s.skippedFiles = s.totalFiles →
        (∀ f ∈ steps, f.cancelOuter = false ∧ f.cancelInner = false) →
        (scanDirRec s steps).scannedFiles + (scanDirRec s steps).skippedFiles
          = (scanDirRec s steps).totalFiles) := by
  induction steps generalizing s with
  | nil =>
    refine ⟨?_, fun heq _ => by simpa [scanDirRec] using heq⟩
    intro n
    simpa [scanDirRec] using hle
  | cons f rest ih =>
    constructor
    · intro n
      cases n with
      | zero => simpa [scanDirRec] using hle
      | succ m =>
        rw [List.take_succ_cons]
        by_cases hco : f.cancelOuter = true
        · simpa [scanDirRec, hco] using hle
        · rw [Bool.not_eq_true] at hco
          have hstep := dirStep_le f s hle
          have hm := (ih _ hstep).1 m
          simpa [scanDirRec, hco] using hm
    · intro heq hall
      have hco : f.cancelOuter = false := (hall f (List.mem_cons_self f rest)).1
      have hci : f.cancelInner = false := (hall f (List.mem_cons_self f rest)).2
      have hstep_le := dirStep_le f s hle
      have hstep_eq := dirStep_eq f s hci heq
      have hres := (ih _ hstep_le).2 hstep_eq (fun g hg => hall g (List.mem_cons_of_mem _ hg))
      simpa [scanDirRec, hco] using hres

/-- Witness for C8 (amended): a two-file directory traversal starting from
reset statistics; the invariant holds and equality is reached. -/
theorem scanDirRec_stats_witness :
    (scanDirRec zeroStats [⟨false, false, true, false, true, 10⟩,
        ⟨false, false, false, false, false, 5⟩]).scannedFiles
      + (scanDirRec zeroStats [⟨false, false, true, false, true, 10⟩,
        ⟨false, false, false, false, false, 5⟩]).skippedFiles
      = (scanDirRec zeroStats [⟨false, false, true, false, true, 10⟩,
        ⟨false, false, false, false, false, 5⟩]).totalFiles :=
  (scanDirRec_stats [⟨false, false, true, false, true, 10⟩,
      ⟨false, false, false, false, false, 5⟩] zeroStats (by decide)).2
    (by decide) (by decide)

/-- Claim C8 (counterexample): on the single-file path — `Scanner::ScanFile`
resets the statistics and calls `ScanSingleFile` directly — `scannedFiles`
becomes 1 while `totalFiles` stays 0, so
`scanned_files + skipped_files ≤ total_files` fails during and after that
scan. -/
theorem scannerScanFileStats_counterexample :
    ¬ ((scannerScanFileStats ⟨false, false, true, false, false, 100⟩).scannedFiles
        + (scannerScanFileStats ⟨false, false, true, false, false, 100⟩).skippedFiles
      ≤ (scannerScanFileStats ⟨false, false, true, false, false, 100⟩).totalFiles) := by
  decide

end ClientApp
